import Mathlib

/-!
Shallow embedding of the FreeRTOS-based temperature/humidity firmware
(producer task `temp_humi_monitor`, consumer tasks `led_blinky`,
`neo_blinky`, `lcd_display_task`, shared objects from `global.cpp`).

Sensor values are `float` in the source; they are modelled as exact
rationals (`ℚ`), since every comparison in the source is against small
decimal constants that rationals represent exactly.  FreeRTOS binary
semaphores are modelled as a `Bool` ("pending") with the standard
give/take semantics; the bounded FIFO queue as a `List` with capacity 5
(`xQueueCreate(5, sizeof(SensorData_t))` in global.cpp); the mutex
around `currentDisplayState` as a boolean "acquired the lock within the
timeout" outcome fed to the display iteration.
-/

namespace IotAssignment

/-- `DisplayState_t` enum from `include/global.h`. -/
inductive DisplayState_t where
  | normal
  | warning
  | critical
deriving DecidableEq, Repr

/-- `SensorData_t` struct from `include/global.h` (temperature, humidity,
timestamp). -/
structure SensorData_t where
  temperature : ℚ
  humidity : ℚ
  timestamp : ℕ
deriving DecidableEq, Repr

/-- The display classification computed inline in `lcd_display_task`
(`src/task_lcd_display.cpp` lines 103-120): critical / warning / normal
branches, conditions transcribed literally. -/
def classifyDisplay (temperature humidity : ℚ) : DisplayState_t :=
  if temperature < 15 ∨ temperature > 32 ∨ humidity < 30 ∨ humidity > 70 then
    .critical
  else if (temperature ≥ 15 ∧ temperature < 18) ∨
          (temperature > 28 ∧ temperature ≤ 32) ∨
          (humidity ≥ 30 ∧ humidity < 40) ∨
          (humidity > 60 ∧ humidity ≤ 70) then
    .warning
  else
    .normal

/-- The `updateInterval` (ms) set alongside the classification in
`lcd_display_task` (1000 / 2000 / 5000). -/
def displayUpdateInterval (s : DisplayState_t) : ℕ :=
  match s with
  | .critical => 1000
  | .warning => 2000
  | .normal => 5000

/-- Modelled from the spec (section 4.6): the spec's own classification
table, written from the spec's words, to be compared with
`classifyDisplay` from the source. -/
def classifyDisplaySpec (temp humidity : ℚ) : DisplayState_t :=
  if temp < 15 ∨ temp > 32 ∨ humidity < 30 ∨ humidity > 70 then
    .critical
  else if (15 ≤ temp ∧ temp < 18) ∨ (28 < temp ∧ temp ≤ 32) ∨
          (30 ≤ humidity ∧ humidity < 40) ∨ (60 < humidity ∧ humidity ≤ 70) then
    .warning
  else
    .normal

/-! ### FreeRTOS primitives as used by this firmware

A binary semaphore (`xSemaphoreCreateBinary`) is a single pending flag.
`xSemaphoreGive` sets it and reports `pdTRUE` iff it was not already
pending; `xSemaphoreTake` (with any timeout, evaluated at an instant
with no concurrent giver) clears it and reports `pdTRUE` iff it was
pending.  The queue (`xQueueCreate(5, ...)`) is a bounded FIFO list,
oldest at the head. -/

/-- State after `xSemaphoreGive`, paired with its `pdTRUE`/`pdFALSE`
result. -/
def xSemaphoreGive (pending : Bool) : Bool × Bool :=
  (true, !pending)

/-- State after `xSemaphoreTake` on a binary semaphore, paired with its
result: succeeds iff a signal was pending (with no giver running during
the wait, the timeout only matters when nothing is pending). -/
def xSemaphoreTake (pending : Bool) : Bool × Bool :=
  (false, pending)

/-- Queue length fixed at creation: `xQueueCreate(5, sizeof(SensorData_t))`
in `global.cpp` line 28. -/
def sensorQueueCapacity : ℕ := 5

/-- `xQueueSend` on a bounded FIFO: appends when below capacity and
returns `pdTRUE`; when still full after the bounded wait (no receiver
runs during it) returns `pdFALSE` and drops the item. -/
def xQueueSend {α : Type} (q : List α) (x : α) : List α × Bool :=
  if q.length < sensorQueueCapacity then (q ++ [x], true) else (q, false)

/-- `xQueueReceive` on a bounded FIFO: removes and returns the oldest
item, or `none` when the queue stays empty through the timeout. -/
def xQueueReceive {α : Type} (q : List α) : Option α × List α :=
  match q with
  | [] => (none, [])
  | x :: rest => (some x, rest)

/-! ### Shared objects (`global.cpp`) -/

/-- The shared mutable state of `global.cpp` that the four tasks touch:
`glob_temperature`, `glob_humidity`, the two binary semaphores, the
sensor-data queue and the mutex-protected `currentDisplayState`. -/
structure GlobalState where
  glob_temperature : ℚ
  glob_humidity : ℚ
  xTempUpdateSemaphore : Bool
  xHumidityUpdateSemaphore : Bool
  xSensorDataQueue : List SensorData_t
  currentDisplayState : DisplayState_t
deriving DecidableEq, Repr

/-- Initial values from `global.cpp`: globals `0`, semaphores created
empty, queue created empty, `currentDisplayState = DISPLAY_STATE_NORMAL`. -/
def initialGlobalState : GlobalState :=
  { glob_temperature := 0
    glob_humidity := 0
    xTempUpdateSemaphore := false
    xHumidityUpdateSemaphore := false
    xSensorDataQueue := []
    currentDisplayState := .normal }

/-! ### Producer: `temp_humi_monitor` loop body -/

/-- Observable per-iteration effects of the monitor loop: the final
values of the local `temperature`/`humidity` variables, and the result
of each publish attempt (`none` when the publish was not attempted at
all, i.e. on the sensor-failure path). -/
structure MonitorObs where
  localTemperature : ℚ
  localHumidity : ℚ
  tempSemGiveResult : Option Bool
  humiSemGiveResult : Option Bool
  queueSendResult : Option Bool
deriving DecidableEq, Repr

/-- One iteration of the `temp_humi_monitor` loop
(`src/temp_humi_monitor.cpp` lines 42-108).  The DHT20 poll outcome is
`none` when `isnan(temperature) || isnan(humidity)` and
`some (temperature, humidity)` otherwise; `now` is `millis()`.  On
failure the locals are set to the `-1` sentinel and nothing else
happens; on success the globals are updated, both semaphores are given
and a queue send is attempted, unconditionally and in that order. -/
def temp_humi_monitor_iter (poll : Option (ℚ × ℚ)) (now : ℕ)
    (g : GlobalState) : GlobalState × MonitorObs :=
  match poll with
  | none =>
      (g, { localTemperature := -1
            localHumidity := -1
            tempSemGiveResult := none
            humiSemGiveResult := none
            queueSendResult := none })
  | some (temperature, humidity) =>
      let g := { g with glob_temperature := temperature,
                        glob_humidity := humidity }
      let r1 := xSemaphoreGive g.xTempUpdateSemaphore
      let r2 := xSemaphoreGive g.xHumidityUpdateSemaphore
      let sensorData : SensorData_t :=
        { temperature := temperature, humidity := humidity, timestamp := now }
      let r3 := xQueueSend g.xSensorDataQueue sensorData
      ({ g with xTempUpdateSemaphore := r1.1,
                xHumidityUpdateSemaphore := r2.1,
                xSensorDataQueue := r3.1 },
       { localTemperature := temperature
         localHumidity := humidity
         tempSemGiveResult := some r1.2
         humiSemGiveResult := some r2.2
         queueSendResult := some r3.2 })

/-! ### Consumer: `led_blinky` loop body -/

/-- Local state of the `led_blinky` task: blink timings and the cached
temperature copy. -/
structure LedState where
  onTime : ℤ
  offTime : ℤ
  currentTemperature : ℚ
deriving DecidableEq, Repr

/-- Initial locals of `led_blinky` (`src/led_blinky.cpp` lines 42-46):
default 1000/1000 ms blink, default cached temperature 25.0 °C. -/
def led_blinky_init : LedState :=
  { onTime := 1000, offTime := 1000, currentTemperature := 25 }

/-- The temperature → (onTime, offTime) table of `led_blinky`
(`src/led_blinky.cpp` lines 66-89), conditions transcribed literally. -/
def ledBlinkTimes (currentTemperature : ℚ) : ℤ × ℤ :=
  if currentTemperature < 20 then (1000, 1000)
  else if currentTemperature ≥ 20 ∧ currentTemperature < 28 then (500, 500)
  else if currentTemperature ≥ 28 ∧ currentTemperature < 35 then (200, 200)
  else (100, 100)

/-- One iteration of the `led_blinky` loop (`src/led_blinky.cpp` lines
51-98): take the semaphore with a 100 ms timeout; on success copy
`glob_temperature` into the local cache and recompute the blink times;
on timeout keep everything and blink with the previous timings.
Returns the semaphore state after the take and the new locals. -/
def led_blinky_iter (sem : Bool) (glob_temperature : ℚ)
    (st : LedState) : Bool × LedState :=
  let r := xSemaphoreTake sem
  if r.2 then
    let currentTemperature := glob_temperature
    let times := ledBlinkTimes currentTemperature
    (r.1, { onTime := times.1, offTime := times.2,
            currentTemperature := currentTemperature })
  else
    (r.1, st)

/-! ### Consumer: `neo_blinky` loop body -/

/-- Local state of the `neo_blinky` task: current color, breathing
variables and the cached humidity copy.  `brightness` is a `uint8_t`,
`breathDirection` an `int8_t` (its values stay in `[-7, 7]`),
`breathDelay` a `uint16_t`. -/
structure NeoState where
  red : ℕ
  green : ℕ
  blue : ℕ
  brightness : ℕ
  breathDirection : ℤ
  breathDelay : ℕ
  currentHumidity : ℚ
deriving DecidableEq, Repr

/-- Initial locals of `neo_blinky` (`src/neo_blinky.cpp` lines 66-75):
green, full brightness, direction -5, delay 30, cached humidity 50.0. -/
def neo_blinky_init : NeoState :=
  { red := 0, green := 255, blue := 0, brightness := 255,
    breathDirection := -5, breathDelay := 30, currentHumidity := 50 }

/-- The humidity → (r, g, b, breathDirection, breathDelay) table of
`neo_blinky` (`src/neo_blinky.cpp` lines 91-135), conditions
transcribed literally. -/
def neoColorTable (humidity : ℚ) : ℕ × ℕ × ℕ × ℤ × ℕ :=
  if humidity < 30 then (255, 165, 0, -5, 30)
  else if humidity ≥ 30 ∧ humidity < 40 then (255, 255, 0, -3, 40)
  else if humidity ≥ 40 ∧ humidity < 60 then (0, 255, 0, -2, 50)
  else if humidity ≥ 60 ∧ humidity < 70 then (0, 255, 255, -4, 35)
  else (0, 0, 255, -7, 20)

/-- One iteration of the `neo_blinky` loop (`src/neo_blinky.cpp` lines
77-168): take the semaphore with a 100 ms timeout; on success copy
`glob_humidity` and recompute the color table entry; then (always)
apply the breathing step: `brightness += breathDirection` wrapping as a
`uint8_t`, reversing direction at the ≤50 / ≥255 limits, and compute
the displayed RGB with brightness scaling.  Returns the semaphore state
after the take, the new locals, and the displayed (r, g, b). -/
def neo_blinky_iter (sem : Bool) (glob_humidity : ℚ)
    (st : NeoState) : Bool × NeoState × (ℕ × ℕ × ℕ) :=
  let r := xSemaphoreTake sem
  let st :=
    if r.2 then
      let currentHumidity := glob_humidity
      let c := neoColorTable currentHumidity
      { st with red := c.1, green := c.2.1, blue := c.2.2.1,
                breathDirection := c.2.2.2.1, breathDelay := c.2.2.2.2,
                currentHumidity := currentHumidity }
    else st
  let brightness : ℕ :=
    (((st.brightness : ℤ) + st.breathDirection) % 256).toNat
  let breathDirection : ℤ :=
    if brightness ≤ 50 then |st.breathDirection|
    else if brightness ≥ 255 then -|st.breathDirection|
    else st.breathDirection
  let displayRed := st.red * brightness / 255
  let displayGreen := st.green * brightness / 255
  let displayBlue := st.blue * brightness / 255
  (r.1,
   { st with brightness := brightness, breathDirection := breathDirection },
   (displayRed, displayGreen, displayBlue))

/-! ### Consumer: `lcd_display_task` loop body -/

/-- Local state of the `lcd_display_task`: previous display state,
flash toggle and the update interval (ms). -/
structure LcdLocals where
  previousState : DisplayState_t
  flashState : Bool
  updateInterval : ℕ
deriving DecidableEq, Repr

/-- Initial locals of `lcd_display_task`
(`src/task_lcd_display.cpp` lines 77-81). -/
def lcd_display_init : LcdLocals :=
  { previousState := .normal, flashState := false, updateInterval := 5000 }

/-- What one iteration renders on the LCD: nothing when the queue
receive timed out, otherwise the classified state with the received
values and the flash toggle used for this frame. -/
inductive LcdRender where
  | nothingRendered
  | rendered (state : DisplayState_t) (temperature humidity : ℚ)
      (flash : Bool)
deriving DecidableEq, Repr

/-- One iteration of the `lcd_display_task` loop
(`src/task_lcd_display.cpp` lines 83-227).  `mutexAcquired` is the
outcome of `xSemaphoreTake(xLCDStateSemaphore, 100ms)`: when it
succeeds, `currentDisplayState` and `previousState` are set to the new
classification and the mutex is released; when it fails the state
update is skipped entirely.  The LCD render then happens in either
case from the new classification; `flashState` toggles in the WARNING
and CRITICAL branches.  Returns the new locals, the new shared
`currentDisplayState`, and what was rendered. -/
def lcd_display_task_iter (received : Option SensorData_t)
    (mutexAcquired : Bool) (st : LcdLocals)
    (currentDisplayState : DisplayState_t) :
    LcdLocals × DisplayState_t × LcdRender :=
  match received with
  | none => (st, currentDisplayState, .nothingRendered)
  | some d =>
      let newState := classifyDisplay d.temperature d.humidity
      let updateInterval := displayUpdateInterval newState
      let (currentDisplayState, previousState) :=
        if mutexAcquired then (newState, newState)
        else (currentDisplayState, st.previousState)
      let flashState :=
        match newState with
        | .normal => st.flashState
        | .warning => !st.flashState
        | .critical => !st.flashState
      ({ previousState := previousState, flashState := flashState,
         updateInterval := updateInterval },
       currentDisplayState,
       .rendered newState d.temperature d.humidity st.flashState)

/-- `SharedDisplayState.read`: under the mutex, copy out
`currentDisplayState`. -/
def readDisplayState (g : GlobalState) : DisplayState_t :=
  g.currentDisplayState

end IotAssignment

namespace IotAssignment

/-- C1: the Display classification is total (the match proves it returns
one of the three states for every input) and coincides with the spec
table; at the boundaries, `classifyDisplay 15 50 = WARNING` and
`classifyDisplay 14.99 50 = CRITICAL`. -/
theorem classifyDisplay_matches_spec :
    (∀ t h : ℚ, classifyDisplay t h = classifyDisplaySpec t h) ∧
    classifyDisplay 15 50 = .warning ∧
    classifyDisplay (1499/100) 50 = .critical := by
  exact ⟨fun t h => rfl, by norm_num [classifyDisplay], by norm_num [classifyDisplay]⟩

/-- C2: for each notification channel (`xTempUpdateSemaphore` and
`xHumidityUpdateSemaphore` are both binary semaphores with these
semantics), signalling is idempotent with at-most-one-pending
semantics: from any state, after two consecutive gives with no
intervening take, a take returns "signaled" exactly once and the
immediately following take returns "not signaled". -/
theorem notification_signal_coalesces :
    ∀ pending : Bool,
      (xSemaphoreTake (xSemaphoreGive (xSemaphoreGive pending).1).1).2
          = true ∧
      (xSemaphoreTake
          (xSemaphoreTake (xSemaphoreGive (xSemaphoreGive pending).1).1).1).2
          = false := by
  decide

/-- C3: the sensor-data queue is a strict FIFO of capacity 5: a send
never grows it past 5 (and a receive only shrinks it), a non-full send
appends at the tail, a receive takes the head (oldest), and sending
`[1,2,3,4,5,6]` into an empty queue leaves `[1,2,3,4,5]` with the 6th
send failing, after which the five items are received in order. -/
theorem sensor_queue_fifo_capacity :
    (∀ (q : List SensorData_t) (x : SensorData_t),
        q.length ≤ sensorQueueCapacity →
        (xQueueSend q x).1.length ≤ sensorQueueCapacity) ∧
    (∀ (q : List SensorData_t) (x : SensorData_t),
        q.length < sensorQueueCapacity →
        (xQueueSend q x).1 = q ++ [x] ∧ (xQueueSend q x).2 = true) ∧
    (∀ (a : SensorData_t) (t : List SensorData_t),
        xQueueReceive (a :: t) = (some a, t)) ∧
    (List.foldl (fun (q : List ℕ) n => (xQueueSend q n).1) []
        [1, 2, 3, 4, 5, 6] = [1, 2, 3, 4, 5] ∧
      (xQueueSend ([1, 2, 3, 4, 5] : List ℕ) 6).2 = false ∧
      (xQueueReceive ([1, 2, 3, 4, 5] : List ℕ)).1 = some 1 ∧
      (xQueueReceive ([2, 3, 4, 5] : List ℕ)).1 = some 2 ∧
      (xQueueReceive ([3, 4, 5] : List ℕ)).1 = some 3 ∧
      (xQueueReceive ([4, 5] : List ℕ)).1 = some 4 ∧
      (xQueueReceive ([5] : List ℕ)).1 = some 5 ∧
      (xQueueReceive ([] : List ℕ)).1 = none) := by
  refine ⟨fun q x hq => ?_, fun q x hq => ?_, fun a t => rfl, by decide⟩
  · unfold xQueueSend
    split
    · simp only [List.length_append, List.length_cons, List.length_nil]
      omega
    · exact hq
  · unfold xQueueSend
    simp [hq]

/-- C3 witness: the capacity bound and the append law applied to a
concrete queue holding one reading. -/
theorem sensor_queue_fifo_capacity_witness :
    (xQueueSend [(⟨10, 20, 0⟩ : SensorData_t)] ⟨11, 21, 5⟩).1.length
        ≤ sensorQueueCapacity ∧
    (xQueueSend [(⟨10, 20, 0⟩ : SensorData_t)] ⟨11, 21, 5⟩).1
        = [⟨10, 20, 0⟩, ⟨11, 21, 5⟩] :=
  ⟨sensor_queue_fifo_capacity.1 [⟨10, 20, 0⟩] ⟨11, 21, 5⟩ (by decide),
   (sensor_queue_fifo_capacity.2.1 [⟨10, 20, 0⟩] ⟨11, 21, 5⟩ (by decide)).1⟩

/-- C4: a monitor iteration whose poll fails (NaN temperature or
humidity) leaves every piece of shared state exactly as it was —
globals, both semaphores, the queue and the display state — and
publishes nothing; the `-1` sentinel lands only in the iteration's
local variables. -/
theorem monitor_failure_publishes_nothing :
    ∀ (now : ℕ) (g : GlobalState),
      temp_humi_monitor_iter none now g =
        (g, { localTemperature := -1, localHumidity := -1,
              tempSemGiveResult := none, humiSemGiveResult := none,
              queueSendResult := none }) := by
  intro now g
  rfl

/-- C5: a monitor iteration with a successful poll performs all three
publishes independently: both semaphores end up given (pending) no
matter what, each give is attempted (reporting failure exactly when the
semaphore was already pending), and the queue send is attempted and
succeeds exactly when the queue has room — when full, the reading is
dropped and the queue is unchanged while both semaphores were still
signalled. -/
theorem monitor_success_publishes_independently :
    ∀ (t h : ℚ) (now : ℕ) (g : GlobalState),
      (temp_humi_monitor_iter (some (t, h)) now g).1.xTempUpdateSemaphore
          = true ∧
      (temp_humi_monitor_iter (some (t, h)) now g).1.xHumidityUpdateSemaphore
          = true ∧
      (temp_humi_monitor_iter (some (t, h)) now g).2.tempSemGiveResult
          = some (!g.xTempUpdateSemaphore) ∧
      (temp_humi_monitor_iter (some (t, h)) now g).2.humiSemGiveResult
          = some (!g.xHumidityUpdateSemaphore) ∧
      (temp_humi_monitor_iter (some (t, h)) now g).2.queueSendResult
          = some (decide
              (g.xSensorDataQueue.length < sensorQueueCapacity)) ∧
      (temp_humi_monitor_iter (some (t, h)) now g).1.xSensorDataQueue
          = (if g.xSensorDataQueue.length < sensorQueueCapacity
             then g.xSensorDataQueue ++ [⟨t, h, now⟩]
             else g.xSensorDataQueue) := by
  intro t h now g
  simp only [temp_humi_monitor_iter, xSemaphoreGive, xQueueSend]
  split <;> simp_all

/-- C6 counterexample: the claim that no consumer reads a shared global
sensor variable directly is false for the LED and Pixel consumers — the
semaphore carries no payload, yet the value each task uses is exactly
the shared global at the moment of the take (`glob_temperature` in
led_blinky.cpp line 59, `glob_humidity` in neo_blinky.cpp line 82):
with the identical channel input (a pending signal), two different
global values produce different consumer states. -/
theorem consumer_reads_global_directly_cex :
    (led_blinky_iter true 10 led_blinky_init).2.currentTemperature = 10 ∧
    (neo_blinky_iter true 10 neo_blinky_init).2.1.currentHumidity = 10 ∧
    (led_blinky_iter true 10 led_blinky_init).2 ≠
      (led_blinky_iter true 30 led_blinky_init).2 := by
  refine ⟨rfl, rfl, fun hcontra => ?_⟩
  have h3 := congrArg LedState.currentTemperature hcontra
  norm_num [led_blinky_iter, xSemaphoreTake, ledBlinkTimes] at h3

/-- C6 amended: the Display consumer obtains sensor values only through
the queue payload, but the LED and Pixel consumers do read the shared
globals `glob_temperature` / `glob_humidity` directly — though only in
iterations where their semaphore take succeeded; on a timed-out take
neither consumer touches the global (its result is independent of the
global's value), each falling back to its cached local copy. -/
theorem consumers_cached_copy_amended :
    (∀ (g g' : ℚ) (st : LedState),
        led_blinky_iter false g st = led_blinky_iter false g' st) ∧
    (∀ (g g' : ℚ) (st : NeoState),
        neo_blinky_iter false g st = neo_blinky_iter false g' st) ∧
    (∀ (g : ℚ) (st : LedState),
        (led_blinky_iter true g st).2.currentTemperature = g) ∧
    (∀ (g : ℚ) (st : NeoState),
        (neo_blinky_iter true g st).2.1.currentHumidity = g) ∧
    (∀ (d : SensorData_t) (m : Bool) (st : LcdLocals)
        (c : DisplayState_t),
        (lcd_display_task_iter (some d) m st c).2.2 =
          .rendered (classifyDisplay d.temperature d.humidity)
            d.temperature d.humidity st.flashState) := by
  refine ⟨fun g g' st => rfl, fun g g' st => rfl, fun g st => rfl,
          fun g st => rfl, fun d m st c => ?_⟩
  cases m <;> simp [lcd_display_task_iter]

/-- C7: on every successful queue receive, the Display consumer renders
the LCD output for the classification of the received reading, and —
exactly when the mutex take succeeded within its bounded wait — writes
that classification to the shared `currentDisplayState` (tracking it in
`previousState`); on a failed take it skips the state update entirely,
while the update interval is still set from the classification. -/
theorem lcd_receive_classifies_writes_renders :
    ∀ (d : SensorData_t) (mutexAcquired : Bool) (st : LcdLocals)
      (cur : DisplayState_t),
      (lcd_display_task_iter (some d) mutexAcquired st cur).2.2 =
          .rendered (classifyDisplay d.temperature d.humidity)
            d.temperature d.humidity st.flashState ∧
      (lcd_display_task_iter (some d) mutexAcquired st cur).2.1 =
          (if mutexAcquired then classifyDisplay d.temperature d.humidity
           else cur) ∧
      (lcd_display_task_iter (some d) mutexAcquired st cur).1.previousState =
          (if mutexAcquired then classifyDisplay d.temperature d.humidity
           else st.previousState) ∧
      (lcd_display_task_iter (some d) mutexAcquired st cur).1.updateInterval =
          displayUpdateInterval (classifyDisplay d.temperature d.humidity) := by
  intro d mutexAcquired st cur
  cases mutexAcquired <;>
    simp [lcd_display_task_iter]

/-- C8: a timed-out channel wait is handled as a normal outcome: the
LED task's state (blink times and cached temperature) is exactly
unchanged, and the Pixel task keeps its color, its breath delay, its
cached humidity and its breathing speed (the direction's magnitude;
the sign may flip at a brightness limit as part of the ongoing
breathing animation, which runs every iteration regardless). -/
theorem consumer_timeout_keeps_policy :
    ∀ (gt gh : ℚ) (led : LedState) (neo : NeoState),
      led_blinky_iter false gt led = (false, led) ∧
      (neo_blinky_iter false gh neo).1 = false ∧
      (neo_blinky_iter false gh neo).2.1.red = neo.red ∧
      (neo_blinky_iter false gh neo).2.1.green = neo.green ∧
      (neo_blinky_iter false gh neo).2.1.blue = neo.blue ∧
      (neo_blinky_iter false gh neo).2.1.breathDelay = neo.breathDelay ∧
      (neo_blinky_iter false gh neo).2.1.currentHumidity
          = neo.currentHumidity ∧
      |(neo_blinky_iter false gh neo).2.1.breathDirection|
          = |neo.breathDirection| := by
  intro gt gh led neo
  refine ⟨rfl, rfl, rfl, rfl, rfl, rfl, rfl, ?_⟩
  simp only [neo_blinky_iter, xSemaphoreTake, Bool.false_eq_true, if_false]
  split
  · exact abs_abs _
  · split
    · rw [abs_neg, abs_abs]
    · rfl

/-- C9: end to end, publishing the reading (10 °C, 20 %) from the
initial state makes the LED consumer pick the COLD 1000/1000 ms
pattern, the Pixel consumer pick the DRY orange (255, 165, 0), and the
Display consumer classify CRITICAL and write it to the shared display
state, so a subsequent read returns CRITICAL. -/
theorem end_to_end_cold_dry_critical :
    (led_blinky_iter
        (temp_humi_monitor_iter (some (10, 20)) 0 initialGlobalState).1.xTempUpdateSemaphore
        (temp_humi_monitor_iter (some (10, 20)) 0 initialGlobalState).1.glob_temperature
        led_blinky_init).2.onTime = 1000 ∧
    (led_blinky_iter
        (temp_humi_monitor_iter (some (10, 20)) 0 initialGlobalState).1.xTempUpdateSemaphore
        (temp_humi_monitor_iter (some (10, 20)) 0 initialGlobalState).1.glob_temperature
        led_blinky_init).2.offTime = 1000 ∧
    (neo_blinky_iter
        (temp_humi_monitor_iter (some (10, 20)) 0 initialGlobalState).1.xHumidityUpdateSemaphore
        (temp_humi_monitor_iter (some (10, 20)) 0 initialGlobalState).1.glob_humidity
        neo_blinky_init).2.1.red = 255 ∧
    (neo_blinky_iter
        (temp_humi_monitor_iter (some (10, 20)) 0 initialGlobalState).1.xHumidityUpdateSemaphore
        (temp_humi_monitor_iter (some (10, 20)) 0 initialGlobalState).1.glob_humidity
        neo_blinky_init).2.1.green = 165 ∧
    (neo_blinky_iter
        (temp_humi_monitor_iter (some (10, 20)) 0 initialGlobalState).1.xHumidityUpdateSemaphore
        (temp_humi_monitor_iter (some (10, 20)) 0 initialGlobalState).1.glob_humidity
        neo_blinky_init).2.1.blue = 0 ∧
    (lcd_display_task_iter
        (xQueueReceive (temp_humi_monitor_iter (some (10, 20)) 0 initialGlobalState).1.xSensorDataQueue).1
        true lcd_display_init
        (temp_humi_monitor_iter (some (10, 20)) 0 initialGlobalState).1.currentDisplayState).2.1
      = .critical ∧
    readDisplayState
      { (temp_humi_monitor_iter (some (10, 20)) 0 initialGlobalState).1 with
        currentDisplayState :=
          (lcd_display_task_iter
              (xQueueReceive (temp_humi_monitor_iter (some (10, 20)) 0 initialGlobalState).1.xSensorDataQueue).1
              true lcd_display_init
              (temp_humi_monitor_iter (some (10, 20)) 0 initialGlobalState).1.currentDisplayState).2.1 }
      = .critical := by
  refine ⟨rfl, rfl, rfl, rfl, rfl, ?_, ?_⟩ <;>
    norm_num [temp_humi_monitor_iter, xSemaphoreGive, xQueueSend,
      xQueueReceive, initialGlobalState, lcd_display_task_iter,
      classifyDisplay, readDisplayState, sensorQueueCapacity,
      displayUpdateInterval]

/-- C10: before any semaphore is received, the LED task's defaults are
the COLD 1000/1000 ms pattern while its cached default temperature
25.0 °C maps to the COMFORTABLE 500/500 ms pattern, so the initial
blink pattern is inconsistent with the initial cached temperature. -/
theorem led_initial_pattern_inconsistent :
    led_blinky_init.onTime = 1000 ∧ led_blinky_init.offTime = 1000 ∧
    led_blinky_init.currentTemperature = 25 ∧
    ledBlinkTimes 10 = (1000, 1000) ∧
    ledBlinkTimes led_blinky_init.currentTemperature = (500, 500) ∧
    (led_blinky_init.onTime, led_blinky_init.offTime) ≠
      ledBlinkTimes led_blinky_init.currentTemperature := by
  refine ⟨rfl, rfl, rfl, by norm_num [ledBlinkTimes],
    by norm_num [ledBlinkTimes, led_blinky_init], ?_⟩
  norm_num [ledBlinkTimes, led_blinky_init]

end IotAssignment
